import Mathlib

/-!
Shallow embedding of `src/app.py` (Coinbase-Bot): a FastAPI backend with a
price endpoint, a candle-history endpoint with a synthetic fallback, a trade
endpoint, and a fee-aware auto-trader status endpoint.

Conventions of the embedding:
* Python floats become `ℚ` (the arithmetic here is sums, divisions and
  comparisons; no rounding behaviour is relied on by the code).
* Times (`datetime` values, `timedelta`s) become `ℚ` measured in minutes.
* Upstream HTTP calls are abstracted as an explicit outcome value
  (status code plus parsed body, or a raised exception); a Python function
  that can raise becomes a Lean function into `Except`.
* JSON response dictionaries become association lists `List (String × JVal)`
  in the key order of the source, so that claims about which keys a response
  carries can be stated.
-/

namespace CoinbaseBot

/-! ### Config constants (src/app.py lines 26-50, at their env-var defaults) -/

/-- Source: `FEE_RATE = float(os.getenv("TRADING_FEE_RATE", "0.006"))` -/
def FEE_RATE : ℚ := 6/1000

/-- Source: `FEE_BUFFER_PCT = float(os.getenv("TRADING_BUFFER_PCT", "0.5"))` -/
def FEE_BUFFER_PCT : ℚ := 1/2

/-- Source: `MIN_QUOTE = float(os.getenv("TRADING_MIN_QUOTE", "5"))` -/
def MIN_QUOTE : ℚ := 5

/-- Source: `COOLDOWN_MINUTES = int(os.getenv("TRADING_COOLDOWN_MINUTES", "15"))` -/
def COOLDOWN_MINUTES : ℚ := 15

/-- The `COINS` list (lines 37-48). -/
def COINS : List String :=
  ["BTC-USD", "ETH-USD", "BCH-USD", "SOL-USD", "LTC-USD",
   "AVAX-USD", "LINK-USD", "DOT-USD", "ADA-USD", "DOGE-USD"]

/-- line 388: `round_trip_fee_pct = FEE_RATE * 2 * 100.0`. -/
def round_trip_fee_pct : ℚ := FEE_RATE * 2 * 100

/-- line 389: `min_move_pct = round_trip_fee_pct + FEE_BUFFER_PCT`. -/
def min_move_pct : ℚ := round_trip_fee_pct + FEE_BUFFER_PCT

/-! ### JSON values -/

/-- The reason strings of `api_auto_status`, abstracted constructor by
constructor (each Python f-string becomes a constructor carrying the data it
interpolates; decimal formatting is not modelled). -/
inductive Reason where
  | no_history
  | no_closes
  | belowEdge (diff minMove : ℚ)
  | cooldown (minutes : ℚ)
  | dip (absDiff minMove : ℚ)
  | pump (diff minMove : ℚ)
  | notEnoughQuote (cur : String) (bal : ℚ)
  | notEnoughBase (cur : String) (bal : ℚ)
  | tradeFailed (err : String)
  | noTrade
  deriving DecidableEq

/-- A JSON scalar appearing in the responses we model. -/
inductive JVal where
  | b (v : Bool)
  | s (v : String)
  | n (v : ℚ)
  | r (v : Reason)
  deriving DecidableEq

/-- Whether a response dictionary carries the key `k`. -/
def hasKey (k : String) (resp : List (String × JVal)) : Bool :=
  resp.any (fun kv => kv.1 = k)

/-! ### `/api/prices` (lines 169-195) -/

/-- Outcome of the per-coin spot-price GET inside `api_prices`'s `try:` block:
either a response with a status code and (when the body parsed and carried a
numeric `data.amount`) the parsed amount, or a raised exception (timeout,
connection error). `amount = none` stands for malformed JSON or a missing
key, which raises inside the `try:`. -/
inductive PriceFetch where
  | ok (status : Nat) (amount : Option ℚ)
  | exn
  deriving DecidableEq

/-- Lines 175-183: the price used for one coin. Any failure (non-200 status,
raised exception, unparsable body) yields `0.0`. -/
def fetchAmount : PriceFetch → ℚ
  | .ok status amount => if status = 200 then amount.getD 0 else 0
  | .exn => 0

/-- One entry of the `coins` list built at lines 184-191. -/
structure CoinEntry where
  symbol : String
  price : ℚ
  signal : String
  confidence : Nat
  deriving DecidableEq

/-- Lines 171-194 of `api_prices`: build an entry per coin from the fetch
outcome, sort by price descending (Python's `sort` with `reverse=True` is a
stable sort; any stable sort computes the same list, and we use insertion
sort), take the top 10. -/
def api_prices (fetch : String → PriceFetch) : List CoinEntry :=
  let coins_out := COINS.map fun pair =>
    { symbol := pair, price := fetchAmount (fetch pair),
      signal := "HOLD", confidence := 50 }
  (coins_out.insertionSort (fun a b => b.price ≤ a.price)).take 10

/-! ### `/api/history` (lines 201-271) -/

/-- One raw exchange candle `[time, low, high, open, close, volume]`
(line 254). Timestamps are abstracted to `ℚ`. -/
structure Candle6 where
  ts : ℚ
  low : ℚ
  high : ℚ
  open_ : ℚ
  close : ℚ
  vol : ℚ
  deriving DecidableEq

/-- One output point `{t, o, h, l, c}`. -/
structure Point where
  t : ℚ
  o : ℚ
  h : ℚ
  l : ℚ
  c : ℚ
  deriving DecidableEq

/-- Outcome of the candles GET at line 236, which is *not* inside a `try:`:
a status code together with the parsed body once `r.json()` is called
(`none` when the body is malformed JSON, which makes `r.json()` raise), or a
raised exception (timeout, connection error) from the GET itself. -/
inductive HistFetch where
  | ok (status : Nat) (candles : Option (List Candle6))
  | exn
  deriving DecidableEq

/-- The exceptions `api_history` can let escape. -/
inductive HistExn where
  | timeout
  | badJson
  deriving DecidableEq

/-- The response of `api_history`. -/
structure HistResp where
  ok : Bool
  fallback : Bool
  points : List Point
  deriving DecidableEq

/-- Lines 211-232: granularity (seconds) and window start (minutes before
`now`), chosen from the range key; every key other than `1D`/`1W`/`1M`/`6M`
falls to the 1Y arm capped at 300 days. Only shapes the upstream request. -/
def histParams (now : ℚ) (range_key : String) : ℚ × ℚ :=
  let rk := range_key.toUpper
  if rk = "1D" then (900, now - 1440)
  else if rk = "1W" then (3600, now - 7 * 1440)
  else if rk = "1M" then (21600, now - 30 * 1440)
  else if rk = "6M" then (86400, now - 180 * 1440)
  else (86400, now - 300 * 1440)

/-- Lines 239-251: the fallback "simple wave" generated when the upstream
returns a non-200 status. Exactly 60 points whatever the range key. -/
def fallbackPoints (now : ℚ) : List Point :=
  (List.range 60).map fun i =>
    { t := now - 10 * ((60 : ℚ) - i)
      o := 100
      h := 100 * (1002/1000)
      l := 100 * (998/1000)
      c := 100 * (1 + (1/100) * ((i : ℚ) / 60)) }

/-- Lines 256-269: real candles are reversed (oldest first) and reshaped
into `{t, o, h, l, c}` points. -/
def pointsOf (candles_raw : List Candle6) : List Point :=
  candles_raw.reverse.map fun c =>
    { t := c.ts, o := c.open_, h := c.high, l := c.low, c := c.close }

/-- Lines 201-271 of `api_history`. A raised GET (`.exn`) propagates as a
timeout exception; a 200 response whose body fails to parse propagates the
`r.json()` exception; a non-200 status yields the fallback wave; otherwise
the candles are reversed (oldest first) and reshaped into points. -/
def api_history (now : ℚ) (range_key : String) (fetch : HistFetch) :
    Except HistExn HistResp :=
  let _params := histParams now range_key
  match fetch with
  | .exn => .error .timeout
  | .ok status body =>
    if status ≠ 200 then
      .ok { ok := false, fallback := true, points := fallbackPoints now }
    else
      match body with
      | none => .error .badJson
      | some candles_raw =>
        .ok { ok := true, fallback := false, points := pointsOf candles_raw }

/-! ### helpers (lines 122-133) -/

/-- Helper `parse_base_from_pair`: `"BTC-USD" -> "BTC"`. -/
def parse_base_from_pair (pair : String) : String :=
  if pair.contains '-' then (pair.splitOn "-").headD pair else pair

/-- Helper `parse_quote_from_pair`: `"BTC-USD" -> "USD"`. -/
def parse_quote_from_pair (pair : String) : String :=
  if pair.contains '-' then ((pair.splitOn "-").drop 1).headD "USD" else "USD"

/-! ### `/api/trade` (lines 290-330) -/

/-- Python's `str.upper()` (used on the `side` field), written structurally
over the character list so that it evaluates inside proofs. -/
def upper (s : String) : String := String.mk (s.data.map Char.toUpper)

/-- The trade payload. Values arrive as JSON and are passed through `str(...)`
before use; we model them directly as optional strings. -/
structure TradePayload where
  product_id : Option String
  side : Option String
  quote_size : Option String
  base_size : Option String
  deriving DecidableEq

/-- Python truthiness of an optional string: `None` and `""` are falsy. -/
def truthy : Option String → Bool
  | none => false
  | some s => s ≠ ""

/-- The `order_configuration` built at lines 316-319: a
`market_market_ioc` keyed by either `quote_size` or `base_size`. -/
inductive OrderConf where
  | quote (s : String)
  | base (s : String)
  deriving DecidableEq

/-- The order body posted to `/orders` (lines 321-325). -/
structure OrderBody where
  product_id : String
  side : String
  order_configuration : OrderConf
  deriving DecidableEq

/-- Lines 302-330 of `api_trade`. `hasCreds` is `HAS_CREDS`;
`brokerage = none` means the POST to `/orders` succeeded, `some e` that it
reported the error text `e`. The result is the `{"ok": True}` body (with the
order that was posted) or the `{"ok": False, "error": ...}` error text. -/
def api_trade (hasCreds : Bool) (brokerage : Option String)
    (payload : TradePayload) : Except String OrderBody :=
  if ¬hasCreds then .error "missing_coinbase_creds"
  else
    let side := upper (payload.side.getD "")
    if ¬truthy payload.product_id ∨ (side ≠ "BUY" ∧ side ≠ "SELL") then
      .error "bad_request"
    else if ¬truthy payload.quote_size ∧ ¬truthy payload.base_size then
      .error "need_quote_or_base"
    else
      let conf :=
        if truthy payload.quote_size then OrderConf.quote (payload.quote_size.getD "")
        else OrderConf.base (payload.base_size.getD "")
      match brokerage with
      | some e => .error e
      | none =>
        .ok { product_id := payload.product_id.getD "", side := side,
              order_configuration := conf }

/-! ### `/api/auto/status` (lines 350-516) -/

/-- The ambient inputs of one `api_auto_status` call: the globals it reads,
the wall clock, and the behaviour of the brokerage on this call.
`balance cur` is the available balance `get_account_balance` would report for
currency `cur` when credentials are present (without credentials it reports
`0.0`); `brokerage` is as in `api_trade`. -/
structure AutoEnv where
  auto_on : Bool
  hasCreds : Bool
  now : ℚ
  balance : String → ℚ
  brokerage : Option String

/-- Lines 136-155: `get_account_balance` returns `0.0` without credentials. -/
def get_account_balance (env : AutoEnv) (cur : String) : ℚ :=
  if env.hasCreds then env.balance cur else 0

/-- Line 383: `recent_avg = sum(closes[-window:]) / window` with
`window = min(12, len(closes))` (line 382). -/
def recentAvg (closes : List ℚ) : ℚ :=
  let window := min 12 closes.length
  (closes.drop (closes.length - window)).sum / window

/-- Line 385: `diff_pct = (current_price - recent_avg) / recent_avg * 100.0`
with `current_price = closes[-1]` (line 381). In Python a zero average would
raise `ZeroDivisionError`; theorems about this quantity therefore assume the
average is nonzero. -/
def diffPct (closes : List ℚ) : ℚ :=
  (closes.getLastD 0 - recentAvg closes) / recentAvg closes * 100

/-- Lines 391 and 406-411: the action chosen from the percentage move. -/
def signalAction (diff : ℚ) : String :=
  if diff ≤ -min_move_pct then "BUY"
  else if min_move_pct ≤ diff then "SELL"
  else "HOLD"

/-- Lines 392 and 406-411: the reason paired with the action. -/
def signalReason (diff : ℚ) : Reason :=
  if diff ≤ -min_move_pct then .dip |diff| min_move_pct
  else if min_move_pct ≤ diff then .pump diff min_move_pct
  else .belowEdge diff min_move_pct

/-- The close series `api_auto_status` extracts from a successful candle
fetch: candles are reversed oldest-first and `c` is the candle's close
(lines 256-268, 372). The `is not None` filter at line 372 never drops a
point, as every point produced by `api_history` carries `c`. -/
def candleCloses (candles : List Candle6) : List ℚ :=
  candles.reverse.map (·.close)

/-- Lines 405-516 of `api_auto_status`, past the cooldown check: classify
the move, report it when the auto-trader is off or the action is HOLD, and
otherwise check the balance, place the order through `api_trade`, and on
success stamp `LAST_TRADE_AT` (the second component) with the clock. -/
def autoTradePhase (env : AutoEnv) (product_id : String) (last : Option ℚ)
    (closes : List ℚ) : List (String × JVal) × Option ℚ :=
  let current_price := closes.getLastD 0
  let diff_pct := diffPct closes
  let action := signalAction diff_pct
  let reason := signalReason diff_pct
  if env.auto_on = false ∨ action = "HOLD" then
    ([("ok", .b true), ("auto_on", .b env.auto_on),
      ("action", .s action), ("reason", .r reason),
      ("price", .n current_price)], last)
  else if action = "BUY" then
    let quote_cur := parse_quote_from_pair product_id
    let needed := MIN_QUOTE * (1 + FEE_RATE)
    let bal := get_account_balance env quote_cur
    if bal < needed then
      ([("ok", .b true), ("auto_on", .b true),
        ("action", .s "HOLD"), ("reason", .r (.notEnoughQuote quote_cur bal)),
        ("price", .n current_price)], last)
    else
      match api_trade env.hasCreds env.brokerage
          { product_id := some product_id, side := some "BUY",
            quote_size := some (toString MIN_QUOTE), base_size := none } with
      | .ok _ =>
        ([("ok", .b true), ("auto_on", .b true),
          ("action", .s "BUY"), ("reason", .r reason),
          ("price", .n current_price), ("executed", .b true)],
         some env.now)
      | .error e =>
        ([("ok", .b false), ("auto_on", .b true),
          ("action", .s "BUY"), ("reason", .r (.tradeFailed e)),
          ("price", .n current_price)], last)
  else
    let base_cur := parse_base_from_pair product_id
    let base_needed := MIN_QUOTE / current_price * (102/100)
    let bal := get_account_balance env base_cur
    if bal < base_needed then
      ([("ok", .b true), ("auto_on", .b true),
        ("action", .s "HOLD"), ("reason", .r (.notEnoughBase base_cur bal)),
        ("price", .n current_price)], last)
    else
      match api_trade env.hasCreds env.brokerage
          { product_id := some product_id, side := some "SELL",
            quote_size := none, base_size := some (toString base_needed) } with
      | .ok _ =>
        ([("ok", .b true), ("auto_on", .b true),
          ("action", .s "SELL"), ("reason", .r reason),
          ("price", .n current_price), ("executed", .b true)],
         some env.now)
      | .error e =>
        ([("ok", .b false), ("auto_on", .b true),
          ("action", .s "SELL"), ("reason", .r (.tradeFailed e)),
          ("price", .n current_price)], last)

/-- The exceptions `api_auto_status` can let escape: a propagated exception
of the inner `api_history` call, or the `ZeroDivisionError` raised at line
385 when the reference average is zero. -/
inductive AutoExn where
  | hist (e : HistExn)
  | zeroDivision
  deriving DecidableEq

/-- Lines 350-516 of `api_auto_status`: the response dictionary in source key
order, paired with the updated `LAST_TRADE_AT` global. The exceptions of the
inner `api_history` call propagate, and — matching the source order, where
`diff_pct` is computed at line 385 before the cooldown check at line 396 —
a zero reference average raises `ZeroDivisionError` before any cooldown
response is produced. -/
def api_auto_status (env : AutoEnv) (product_id : String) (last : Option ℚ)
    (fetch : HistFetch) :
    Except AutoExn (List (String × JVal) × Option ℚ) :=
  match api_history env.now "1D" fetch with
  | .error e => .error (.hist e)
  | .ok hist =>
    if hist.ok = false then
      .ok ([("ok", .b false), ("auto_on", .b env.auto_on),
            ("action", .s "HOLD"), ("reason", .r .no_history)], last)
    else
      let closes := hist.points.map (·.c)
      if closes.isEmpty then
        .ok ([("ok", .b false), ("auto_on", .b env.auto_on),
              ("action", .s "HOLD"), ("reason", .r .no_closes)], last)
      else
        let current_price := closes.getLastD 0
        if recentAvg closes = 0 then
          .error .zeroDivision
        else
          let inCooldown :=
            match last with
            | some t => decide (env.now - t < COOLDOWN_MINUTES)
            | none => false
          if inCooldown then
            .ok ([("ok", .b true), ("auto_on", .b env.auto_on),
                  ("action", .s "HOLD"), ("reason", .r (.cooldown COOLDOWN_MINUTES)),
                  ("price", .n current_price)], last)
          else
            .ok (autoTradePhase env product_id last closes)

/-! ### Traces of auto-status calls (for the cooldown property) -/

/-- The inputs of one auto-status poll in a trace. -/
structure AutoStep where
  env : AutoEnv
  product_id : String
  fetch : HistFetch

/-- The state transition of one poll: an escaping exception leaves
`LAST_TRADE_AT` untouched and produces no response. -/
def stepOut (last : Option ℚ) (s : AutoStep) :
    Option (List (String × JVal)) × Option ℚ :=
  match api_auto_status s.env s.product_id last s.fetch with
  | .error _ => (none, last)
  | .ok (resp, last') => (some resp, last')

/-- The wall-clock times at which a trace of polls actually executes trades
(responses carrying the `executed` key), threading `LAST_TRADE_AT`. -/
def tradeTimes (last : Option ℚ) : List AutoStep → List ℚ
  | [] => []
  | s :: rest =>
    match stepOut last s with
    | (some resp, last') =>
      if hasKey "executed" resp then s.env.now :: tradeTimes last' rest
      else tradeTimes last' rest
    | (none, last') => tradeTimes last' rest

/-! ### Reference definitions written from the spec's words -/

/-- The last `min(12, n)` closes of a series, as the refinement claim about
the averaging window words it ("the last min(12, n) closes"). -/
def lastWindow (closes : List ℚ) : List ℚ :=
  closes.reverse.take (min 12 closes.length)

/-- The reference price as the claim words it: the arithmetic mean of the
last `min(12, n)` closes. To be compared with `recentAvg`, which is
transcribed from line 383 of the source. -/
def recentAvgSpec (closes : List ℚ) : ℚ :=
  (lastWindow closes).sum / (min 12 closes.length)

/-- The UI mode of the spec's `BotConfig` record. -/
inductive Mode where
  | off
  | paper
  | live
  deriving DecidableEq

/-- Modelled from the spec: no mode-toggle endpoint exists in `src/app.py`
(the file carries only the `AUTO_TRADER_ON` flag), so the stored-mode update
is modelled from the spec's words: mode transitions are unconditional
overwrites, except that toggling mode to live without credentials present
always results in the stored mode remaining/falling back to paper. -/
def setMode (hasCreds : Bool) (requested : Mode) : Mode :=
  if requested = Mode.live ∧ ¬hasCreds then Mode.paper else requested

/-! ### Sample inputs used to instantiate the universally quantified
theorems on concrete data -/

/-- A raw candle series (newest first, as the exchange returns them) whose
close series, oldest first, is `[100, 100, 98]`. -/
def sampleCandles : List Candle6 :=
  [⟨0, 0, 0, 0, 98, 0⟩, ⟨0, 0, 0, 0, 100, 0⟩, ⟨0, 0, 0, 0, 100, 0⟩]

/-- A raw candle series whose close series, oldest first, is `[100, 90]`:
a 5.26% dip, beyond the minimum edge. -/
def dipCandles : List Candle6 :=
  [⟨0, 0, 0, 0, 90, 0⟩, ⟨0, 0, 0, 0, 100, 0⟩]

/-- A sample environment: auto-trader off, no credentials, clock at `t`. -/
def idleEnv (t : ℚ) : AutoEnv :=
  { auto_on := false, hasCreds := false, now := t,
    balance := fun _ => 0, brokerage := none }

/-- A sample environment: auto-trader on, credentials present, every balance
100, brokerage accepting orders, clock at `t`. -/
def liveEnv (t : ℚ) : AutoEnv :=
  { auto_on := true, hasCreds := true, now := t,
    balance := fun _ => 100, brokerage := none }

/-! ## Helper lemmas -/

/-- Computation of `api_history` on a successful candle fetch. -/
lemma api_history_1D_ok (now : ℚ) (cs : List Candle6) :
    api_history now "1D" (.ok 200 (some cs)) =
      .ok { ok := true, fallback := false, points := pointsOf cs } := rfl

/-- The closes extracted from the points of a successful fetch are the
reversed candle closes. -/
lemma pointsOf_closes (cs : List Candle6) :
    (pointsOf cs).map (·.c) = candleCloses cs := by
  simp [pointsOf, candleCloses]

/-- On a successful 1D fetch with a nonempty close series and a nonzero
reference average, outside the cooldown window and with the auto-trader off
or the classification HOLD, the status operation reports the threshold
classification without trading and leaves the trade timestamp unchanged. -/
lemma auto_status_report (env : AutoEnv) (pid : String) (cs : List Candle6)
    (last : Option ℚ) (hne : candleCloses cs ≠ [])
    (havg : recentAvg (candleCloses cs) ≠ 0)
    (hcd : ∀ t, last = some t → ¬(env.now - t < COOLDOWN_MINUTES))
    (hstay : env.auto_on = false ∨ signalAction (diffPct (candleCloses cs)) = "HOLD") :
    api_auto_status env pid last (.ok 200 (some cs)) =
      .ok ([("ok", .b true), ("auto_on", .b env.auto_on),
            ("action", .s (signalAction (diffPct (candleCloses cs)))),
            ("reason", .r (signalReason (diffPct (candleCloses cs)))),
            ("price", .n ((candleCloses cs).getLastD 0))], last) := by
  unfold api_auto_status
  rw [api_history_1D_ok]
  dsimp only
  rw [pointsOf_closes]
  rw [if_neg (show ¬(true = false) by decide),
      if_neg (show ¬((candleCloses cs).isEmpty = true) by simp [hne]),
      if_neg havg]
  cases last with
  | none =>
    rw [if_neg (show ¬(false = true) by decide)]
    unfold autoTradePhase
    dsimp only
    rw [if_pos hstay]
  | some t =>
    rw [if_neg (show ¬(decide (env.now - t < COOLDOWN_MINUTES) = true) by
          simp [hcd t rfl])]
    unfold autoTradePhase
    dsimp only
    rw [if_pos hstay]

/-- On a successful 1D fetch with a nonempty close series and a nonzero
reference average, a status call strictly inside the cooldown window returns
the cooldown HOLD response and leaves the trade timestamp unchanged. -/
lemma auto_status_cooldown (env : AutoEnv) (pid : String) (t0 : ℚ)
    (cs : List Candle6) (hne : candleCloses cs ≠ [])
    (havg : recentAvg (candleCloses cs) ≠ 0)
    (hcd : env.now - t0 < COOLDOWN_MINUTES) :
    api_auto_status env pid (some t0) (.ok 200 (some cs)) =
      .ok ([("ok", .b true), ("auto_on", .b env.auto_on),
            ("action", .s "HOLD"), ("reason", .r (.cooldown COOLDOWN_MINUTES)),
            ("price", .n ((candleCloses cs).getLastD 0))], some t0) := by
  unfold api_auto_status
  rw [api_history_1D_ok]
  dsimp only
  rw [pointsOf_closes]
  rw [if_neg (show ¬(true = false) by decide),
      if_neg (show ¬((candleCloses cs).isEmpty = true) by simp [hne]),
      if_neg havg,
      if_pos (show decide (env.now - t0 < COOLDOWN_MINUTES) = true by simp [hcd])]

/-- Case analysis of the trade phase: it never emits a confidence key, an
executed response stamps the timestamp with the clock, and a non-executed
response keeps the previous timestamp. -/
lemma autoTradePhase_spec (env : AutoEnv) (pid : String) (last : Option ℚ)
    (closes : List ℚ) :
    hasKey "confidence" (autoTradePhase env pid last closes).1 = false ∧
    (hasKey "executed" (autoTradePhase env pid last closes).1 = true →
       (autoTradePhase env pid last closes).2 = some env.now) ∧
    (hasKey "executed" (autoTradePhase env pid last closes).1 = false →
       (autoTradePhase env pid last closes).2 = last) := by
  unfold autoTradePhase
  dsimp only
  split_ifs <;>
    first
      | exact ⟨by simp [hasKey], fun hf => by simp [hasKey] at hf, fun _ => rfl⟩
      | (split <;>
          first
            | exact ⟨by simp [hasKey], fun hf => by simp [hasKey] at hf, fun _ => rfl⟩
            | exact ⟨by simp [hasKey], fun _ => rfl, fun hf => by simp [hasKey] at hf⟩)

/-- Case analysis of a whole status call: no response carries a confidence
key; a response carrying the executed key stamps the timestamp with the
clock and can only arise at or beyond the cooldown boundary; any other
response leaves the timestamp unchanged. -/
lemma auto_status_resp_spec (env : AutoEnv) (pid : String) (last : Option ℚ)
    (fetch : HistFetch) (resp : List (String × JVal)) (last' : Option ℚ)
    (h : api_auto_status env pid last fetch = .ok (resp, last')) :
    hasKey "confidence" resp = false ∧
    (hasKey "executed" resp = true →
       last' = some env.now ∧
       ∀ t, last = some t → ¬(env.now - t < COOLDOWN_MINUTES)) ∧
    (hasKey "executed" resp = false → last' = last) := by
  cases fetch with
  | exn => simp [api_auto_status, api_history] at h
  | ok status body =>
    by_cases hst : status = 200
    · subst hst
      cases body with
      | none => simp [api_auto_status, api_history] at h
      | some cs =>
        unfold api_auto_status at h
        rw [api_history_1D_ok] at h
        dsimp only at h
        rw [pointsOf_closes] at h
        rw [if_neg (show ¬(true = false) by decide)] at h
        by_cases hie : (candleCloses cs).isEmpty = true
        · rw [if_pos hie, Except.ok.injEq, Prod.mk.injEq] at h
          obtain ⟨hr, hl⟩ := h
          subst hr
          subst hl
          exact ⟨by simp [hasKey], fun hf => by simp [hasKey] at hf, fun _ => rfl⟩
        · rw [if_neg hie] at h
          by_cases havg : recentAvg (candleCloses cs) = 0
          · rw [if_pos havg] at h
            exact absurd h (by simp)
          rw [if_neg havg] at h
          cases last with
          | none =>
            rw [if_neg (show ¬(false = true) by decide), Except.ok.injEq] at h
            have hfst : (autoTradePhase env pid none (candleCloses cs)).1 = resp := by
              rw [h]
            have hsnd : (autoTradePhase env pid none (candleCloses cs)).2 = last' := by
              rw [h]
            obtain ⟨h1, h2, h3⟩ := autoTradePhase_spec env pid none (candleCloses cs)
            rw [← hfst, ← hsnd]
            exact ⟨h1, fun he => ⟨h2 he, fun t ht => nomatch ht⟩, h3⟩
          | some t0 =>
            by_cases hcd : env.now - t0 < COOLDOWN_MINUTES
            · rw [if_pos (show decide (env.now - t0 < COOLDOWN_MINUTES) = true by
                    simp [hcd]),
                  Except.ok.injEq, Prod.mk.injEq] at h
              obtain ⟨hr, hl⟩ := h
              subst hr
              subst hl
              exact ⟨by simp [hasKey], fun hf => by simp [hasKey] at hf, fun _ => rfl⟩
            · rw [if_neg (show ¬(decide (env.now - t0 < COOLDOWN_MINUTES) = true) by
                    simp [hcd]),
                  Except.ok.injEq] at h
              have hfst : (autoTradePhase env pid (some t0) (candleCloses cs)).1 = resp := by
                rw [h]
              have hsnd : (autoTradePhase env pid (some t0) (candleCloses cs)).2 = last' := by
                rw [h]
              obtain ⟨h1, h2, h3⟩ :=
                autoTradePhase_spec env pid (some t0) (candleCloses cs)
              rw [← hfst, ← hsnd]
              exact ⟨h1, fun he => ⟨h2 he, fun t ht => by cases ht; exact hcd⟩, h3⟩
    · have hh : api_history env.now "1D" (.ok status body) =
          .ok { ok := false, fallback := true, points := fallbackPoints env.now } := by
        simp [api_history, hst]
      unfold api_auto_status at h
      rw [hh] at h
      dsimp only at h
      rw [if_pos rfl, Except.ok.injEq, Prod.mk.injEq] at h
      obtain ⟨hr, hl⟩ := h
      subst hr
      subst hl
      exact ⟨by simp [hasKey], fun hf => by simp [hasKey] at hf, fun _ => rfl⟩

/-- Characterisation of one trace step: either an exception (timestamp
kept), or a response; an executed response stamps the clock and is only
possible at or beyond the cooldown boundary, any other keeps the
timestamp. -/
lemma stepOut_spec (last : Option ℚ) (s : AutoStep) :
    ((stepOut last s).1 = none ∧ (stepOut last s).2 = last) ∨
    (∃ resp, (stepOut last s).1 = some resp ∧
       (hasKey "executed" resp = true →
          (stepOut last s).2 = some s.env.now ∧
          ∀ t, last = some t → ¬(s.env.now - t < COOLDOWN_MINUTES)) ∧
       (hasKey "executed" resp = false → (stepOut last s).2 = last)) := by
  unfold stepOut
  cases happ : api_auto_status s.env s.product_id last s.fetch with
  | error e => left; exact ⟨rfl, rfl⟩
  | ok p =>
    obtain ⟨resp, last'⟩ := p
    right
    obtain ⟨-, h2, h3⟩ := auto_status_resp_spec s.env s.product_id last s.fetch
      resp last' happ
    exact ⟨resp, rfl, h2, h3⟩

/-- The executed-trade times of a trace, preceded by the prior trade time
when there is one, are always spaced by at least the cooldown. -/
lemma tradeTimes_chain (steps : List AutoStep) :
    ∀ last : Option ℚ,
      List.Chain' (fun u v => COOLDOWN_MINUTES ≤ v - u)
        (last.toList ++ tradeTimes last steps) := by
  induction steps with
  | nil =>
    intro last
    cases last <;> simp [tradeTimes]
  | cons s rest ih =>
    intro last
    rw [tradeTimes]
    rcases stepOut_spec last s with ⟨hn, hl⟩ | ⟨resp, hr, hexec, hkeep⟩
    · rcases hso : stepOut last s with ⟨r, l'⟩
      rw [hso] at hn hl
      dsimp only at hn hl
      subst hn
      subst hl
      dsimp only
      exact ih _
    · rcases hso : stepOut last s with ⟨r, l'⟩
      rw [hso] at hr hexec hkeep
      dsimp only at hr hexec hkeep
      subst hr
      dsimp only
      by_cases he : hasKey "executed" resp = true
      · rw [if_pos he]
        obtain ⟨hstamp, hsep⟩ := hexec he
        subst hstamp
        have ihs := ih (some s.env.now)
        cases last with
        | none => exact ihs
        | some t0 =>
          have hsep0 : COOLDOWN_MINUTES ≤ s.env.now - t0 := by
            have hlt := hsep t0 rfl
            linarith [not_lt.mp hlt]
          exact List.chain'_cons.mpr ⟨hsep0, ihs⟩
      · rw [if_neg he]
        have hl := hkeep (by simpa using he)
        subst hl
        exact ih _

/-! ## Claim theorems -/

/-- C5 (counterexample): with the default thresholds, the price sequence
[100, 100, 98] moves only -200/149 ≈ -1.34% against the mean of its last
min(12, 3) = 3 closes, which is below the 1.7% required edge, so the
classifier of `api_auto_status` yields HOLD — not BUY (and the operation
emits no confidence at all). -/
theorem classify_100_100_98_not_buy_cex :
    signalAction (diffPct [100, 100, 98]) ≠ "BUY" ∧
    signalAction (diffPct [100, 100, 98]) = "HOLD" := by
  have hd : diffPct [100, 100, 98] = -200/149 := by
    simp [diffPct, recentAvg]
    norm_num
  have h : signalAction (diffPct [100, 100, 98]) = "HOLD" := by
    rw [signalAction, hd]
    rw [if_neg (by norm_num [min_move_pct, round_trip_fee_pct, FEE_RATE, FEE_BUFFER_PCT]),
        if_neg (by norm_num [min_move_pct, round_trip_fee_pct, FEE_RATE, FEE_BUFFER_PCT])]
  exact ⟨by rw [h]; decide, h⟩

/-- C5 (amended): with default thresholds, the sequence [100, 100, 98]
changes by -200/149 ≈ -1.34% versus its reference mean, below the 1.7%
minimum edge, so the classification yields HOLD; run through the whole
status operation (auto off, no prior trade) the response action is HOLD. -/
theorem classify_100_100_98_hold :
    diffPct [100, 100, 98] = -200/149 ∧
    signalAction (diffPct [100, 100, 98]) = "HOLD" ∧
    ((api_auto_status (idleEnv 0) "BTC-USD" none
        (.ok 200 (some sampleCandles))).toOption.map
      (fun p => p.1.lookup "action")) = some (some (.s "HOLD")) := by
  have hd : diffPct [100, 100, 98] = -200/149 := by
    simp [diffPct, recentAvg]
    norm_num
  have h : signalAction (diffPct [100, 100, 98]) = "HOLD" := by
    rw [signalAction, hd]
    rw [if_neg (by norm_num [min_move_pct, round_trip_fee_pct, FEE_RATE, FEE_BUFFER_PCT]),
        if_neg (by norm_num [min_move_pct, round_trip_fee_pct, FEE_RATE, FEE_BUFFER_PCT])]
  have hcs : candleCloses sampleCandles = [100, 100, 98] := by
    simp [candleCloses, sampleCandles]
  refine ⟨hd, h, ?_⟩
  rw [auto_status_report (idleEnv 0) "BTC-USD" sampleCandles none
        (by rw [hcs]; decide)
        (by rw [hcs]; simp [recentAvg]; norm_num)
        (fun t ht => nomatch ht) (Or.inl rfl)]
  rw [hcs, h]
  rfl

/-- C6 (counterexample): when the upstream candle fetch fails with a non-200
status, the 1Y fallback series and the 1D fallback series are the same
60-point wave — the fallback length is not a per-timeframe point count and
1Y does not get more points than 1D. -/
theorem fallback_length_uniform_cex :
    api_history 0 "1Y" (.ok 500 none) =
      .ok { ok := false, fallback := true, points := fallbackPoints 0 } ∧
    api_history 0 "1D" (.ok 500 none) =
      .ok { ok := false, fallback := true, points := fallbackPoints 0 } ∧
    (fallbackPoints 0).length = 60 ∧
    ¬ (fallbackPoints 0).length > (fallbackPoints 0).length := by
  exact ⟨rfl, rfl, rfl, by simp⟩

/-- C6 (amended): for every requested timeframe, when the upstream candle
fetch returns a non-200 status the history operation returns the non-empty
synthetic series `fallbackPoints`, whose length is the fixed constant 60
regardless of timeframe. -/
theorem fallback_fixed_sixty (now : ℚ) (range_key : String) (status : Nat)
    (body : Option (List Candle6)) (h : status ≠ 200) :
    api_history now range_key (.ok status body) =
      .ok { ok := false, fallback := true, points := fallbackPoints now } ∧
    (fallbackPoints now).length = 60 ∧
    fallbackPoints now ≠ [] := by
  have hlen : (fallbackPoints now).length = 60 := rfl
  refine ⟨by simp [api_history, h], hlen, ?_⟩
  intro hnil
  rw [hnil] at hlen
  exact absurd hlen (by decide)

/-- Witness for `fallback_fixed_sixty` at timeframe 1Y and status 500. -/
theorem fallback_fixed_sixty_witness :
    (api_history 0 "1Y" (.ok 500 none) =
      .ok { ok := false, fallback := true, points := fallbackPoints 0 } ∧
    (fallbackPoints 0).length = 60 ∧
    fallbackPoints 0 ≠ []) :=
  fallback_fixed_sixty 0 "1Y" 500 none (by decide)

/-- C4 (counterexample): in the history operation the upstream GET is not
inside a `try:` — a timeout propagates as an exception, and a 200 response
with a malformed JSON body makes `r.json()` raise — so not every upstream
failure mode is converted into a fallback value. -/
theorem api_history_timeout_raises_cex :
    api_history 0 "1D" HistFetch.exn = .error .timeout ∧
    api_history 0 "1D" (.ok 200 none) = .error .badJson := ⟨rfl, rfl⟩

/-- C4 (amended): the prices operation converts every upstream failure mode
(non-200 status, raised exception, unparsable body) into the fallback price
0.0; the history operation converts only a non-200 status into the fallback
series, while a raised GET or malformed JSON body surfaces as an
exception. -/
theorem retrieval_failure_behaviour :
    (∀ status amount, status ≠ 200 → fetchAmount (.ok status amount) = 0) ∧
    fetchAmount .exn = 0 ∧
    fetchAmount (.ok 200 none) = 0 ∧
    (∀ (now : ℚ) rk status body, status ≠ 200 →
       api_history now rk (.ok status body) =
         .ok { ok := false, fallback := true, points := fallbackPoints now }) ∧
    (∀ (now : ℚ) rk, api_history now rk .exn = .error .timeout) ∧
    (∀ (now : ℚ) rk, api_history now rk (.ok 200 none) = .error .badJson) := by
  refine ⟨fun status amount h => by simp [fetchAmount, h], rfl, rfl,
    fun now rk status body h => by simp [api_history, h],
    fun now rk => rfl, fun now rk => rfl⟩

/-- Witness for `retrieval_failure_behaviour` at status 500 / timeframe 1D. -/
theorem retrieval_failure_behaviour_witness :
    fetchAmount (.ok 500 (some 123)) = 0 ∧
    api_history 0 "1D" (.ok 500 (some [])) =
      .ok { ok := false, fallback := true, points := fallbackPoints 0 } ∧
    api_history 0 "1D" .exn = .error .timeout ∧
    api_history 0 "1D" (.ok 200 none) = .error .badJson :=
  ⟨retrieval_failure_behaviour.1 500 (some 123) (by decide),
   retrieval_failure_behaviour.2.2.2.1 0 "1D" 500 (some []) (by decide),
   retrieval_failure_behaviour.2.2.2.2.1 0 "1D",
   retrieval_failure_behaviour.2.2.2.2.2 0 "1D"⟩

/-- C7: toggling the stored mode to live while credentials are absent leaves
the stored mode paper, and the stored mode is never live without
credentials (mode handling modelled from the spec, as `src/app.py` has no
mode endpoint). -/
theorem set_mode_live_without_creds_paper (requested : Mode) :
    setMode false requested ≠ Mode.live ∧
    setMode false Mode.live = Mode.paper := by
  constructor
  · cases requested <;> simp [setMode]
  · simp [setMode]

/-- C1: whenever the close series obtained by the status operation is
nonempty (with a nonzero reference average, as a zero average would make the
source raise instead of answering) and the percentage change of the current
price versus the reference average is strictly below the minimum edge in
magnitude, the status operation answers with action HOLD, executes no trade,
and leaves the last-trade timestamp unchanged — whatever the auto flag,
balances, brokerage behaviour and prior trade time. -/
theorem auto_status_below_edge_holds (env : AutoEnv) (pid : String)
    (last : Option ℚ) (cs : List Candle6)
    (hne : candleCloses cs ≠ [])
    (havg : recentAvg (candleCloses cs) ≠ 0)
    (hlt : |diffPct (candleCloses cs)| < min_move_pct) :
    ∃ resp, api_auto_status env pid last (.ok 200 (some cs)) = .ok (resp, last) ∧
      resp.lookup "action" = some (.s "HOLD") ∧
      hasKey "executed" resp = false := by
  have hact : signalAction (diffPct (candleCloses cs)) = "HOLD" := by
    obtain ⟨h1, h2⟩ := abs_lt.mp hlt
    rw [signalAction, if_neg (by linarith), if_neg (by linarith)]
  rcases last with _ | t0
  · refine ⟨_, auto_status_report env pid cs none hne havg
        (fun t ht => nomatch ht) (Or.inr hact), ?_, ?_⟩
    · simp [List.lookup, hact]
    · simp [hasKey]
  · by_cases hcd : env.now - t0 < COOLDOWN_MINUTES
    · refine ⟨_, auto_status_cooldown env pid t0 cs hne havg hcd, ?_, ?_⟩
      · simp [List.lookup]
      · simp [hasKey]
    · refine ⟨_, auto_status_report env pid cs (some t0) hne havg
          (fun t ht => by cases ht; exact hcd) (Or.inr hact), ?_, ?_⟩
      · simp [List.lookup, hact]
      · simp [hasKey]

/-- Witness for `auto_status_below_edge_holds`: the sample series closing
[100, 100, 98] (a -1.34% move, below the 1.7% edge) with the auto-trader
off and no prior trade. -/
theorem auto_status_below_edge_holds_witness :
    ∃ resp, api_auto_status (idleEnv 0) "BTC-USD" none
        (.ok 200 (some sampleCandles)) = .ok (resp, none) ∧
      resp.lookup "action" = some (.s "HOLD") ∧
      hasKey "executed" resp = false :=
  auto_status_below_edge_holds (idleEnv 0) "BTC-USD" none sampleCandles
    (by decide)
    (by simp [candleCloses, sampleCandles, recentAvg]; norm_num)
    (by
      have hcs : candleCloses sampleCandles = [100, 100, 98] := rfl
      have hd : diffPct [100, 100, 98] = -200/149 := by
        simp [diffPct, recentAvg]
        norm_num
      rw [hcs, hd, abs_lt]
      constructor <;>
        norm_num [min_move_pct, round_trip_fee_pct, FEE_RATE, FEE_BUFFER_PCT])

/-- C9: every entry produced by the prices endpoint — whatever each coin's
fetch outcome, including the 0.0 substituted on failure — carries signal
HOLD and confidence 50; the endpoint never emits BUY or SELL. -/
theorem api_prices_entries_hold_fifty (fetch : String → PriceFetch)
    (e : CoinEntry) (he : e ∈ api_prices fetch) :
    e.signal = "HOLD" ∧ e.confidence = 50 := by
  unfold api_prices at he
  have h1 := List.mem_of_mem_take he
  have h2 := (List.perm_insertionSort
    (fun (a b : CoinEntry) => b.price ≤ a.price) _).mem_iff.mp h1
  simp only [List.mem_map] at h2
  obtain ⟨pair, _, hpe⟩ := h2
  rw [← hpe]
  exact ⟨rfl, rfl⟩

/-- Witness for `api_prices_entries_hold_fifty`: with every fetch raising,
the BTC entry (price 0.0) is in the output and carries HOLD / 50. -/
theorem api_prices_entries_hold_fifty_witness :
    ({ symbol := "BTC-USD", price := 0, signal := "HOLD", confidence := 50 } :
        CoinEntry).signal = "HOLD" ∧
    ({ symbol := "BTC-USD", price := 0, signal := "HOLD", confidence := 50 } :
        CoinEntry).confidence = 50 :=
  api_prices_entries_hold_fifty (fun _ => .exn)
    { symbol := "BTC-USD", price := 0, signal := "HOLD", confidence := 50 }
    (by decide)

/-- C10: when a trade request supplies a (truthy) quote size, any order the
trade operation builds is configured by that quote size, whatever base size
was also supplied; and an order configured by base size can only arise when
the supplied quote size was absent or empty. -/
theorem api_trade_quote_size_priority :
    (∀ (hasCreds : Bool) (brokerage : Option String) (p : TradePayload)
        (body : OrderBody),
       truthy p.quote_size = true →
       api_trade hasCreds brokerage p = .ok body →
       body.order_configuration = OrderConf.quote (p.quote_size.getD "")) ∧
    (∀ (hasCreds : Bool) (brokerage : Option String) (p : TradePayload)
        (body : OrderBody) (s : String),
       api_trade hasCreds brokerage p = .ok body →
       body.order_configuration = OrderConf.base s →
       truthy p.quote_size = false) := by
  constructor
  · intro hasCreds brokerage p body hq h
    unfold api_trade at h
    dsimp only at h
    cases brokerage with
    | some e => split_ifs at h
    | none =>
      split_ifs at h with h1 h2 h3 <;> simp at h
      rw [← h]
  · intro hasCreds brokerage p body s h hconf
    unfold api_trade at h
    dsimp only at h
    cases brokerage with
    | some e => split_ifs at h
    | none =>
      by_cases hq : truthy p.quote_size = true
      · exfalso
        split_ifs at h with h1 h2 h3 <;> simp at h
        rw [← h] at hconf
        simp at hconf
      · simpa using hq

/-- Witness for `api_trade_quote_size_priority`: a payload supplying both
quote size 10 and base size 0.001 yields an order configured by the quote
size; and the reverse direction instantiated at the same successful call. -/
theorem api_trade_quote_size_priority_witness :
    ({ product_id := "BTC-USD", side := "BUY",
       order_configuration := OrderConf.quote "10" } : OrderBody).order_configuration =
      OrderConf.quote ((some "10").getD "") ∧
    truthy (some ("" : String)) = false :=
  ⟨api_trade_quote_size_priority.1 true none
      { product_id := some "BTC-USD", side := some "BUY",
        quote_size := some "10", base_size := some "0.001" }
      { product_id := "BTC-USD", side := "BUY",
        order_configuration := OrderConf.quote "10" }
      (by decide) rfl,
   api_trade_quote_size_priority.2 true none
      { product_id := some "BTC-USD", side := some "BUY",
        quote_size := some "", base_size := some "0.001" }
      { product_id := "BTC-USD", side := "BUY",
        order_configuration := OrderConf.base "0.001" }
      "0.001" rfl rfl⟩

/-- C2 (counterexample): on a close series [100, 90] — a 5.26% dip, well
beyond the minimum edge, so the claim's premise holds — the status operation
answers action BUY but emits no confidence value at all (no fixed
confidence of about 80 accompanies the signal). -/
theorem auto_status_no_confidence_cex :
    ((api_auto_status (idleEnv 0) "BTC-USD" none
        (.ok 200 (some dipCandles))).toOption.map
      (fun p => (p.1.lookup "action", hasKey "confidence" p.1))) =
      some (some (.s "BUY"), false) := by
  have hcs : candleCloses dipCandles = [100, 90] := rfl
  have hd : diffPct [100, 90] = -100/19 := by
    simp [diffPct, recentAvg]
    norm_num
  have hb : signalAction (diffPct [100, 90]) = "BUY" := by
    rw [signalAction, hd,
        if_pos (by norm_num [min_move_pct, round_trip_fee_pct, FEE_RATE, FEE_BUFFER_PCT])]
  rw [auto_status_report (idleEnv 0) "BTC-USD" dipCandles none
        (by rw [hcs]; decide)
        (by rw [hcs]; simp [recentAvg]; norm_num)
        (fun t ht => nomatch ht) (Or.inl rfl)]
  rw [hcs, hb]
  rfl

/-- C2 (amended): the classifier emits BUY when the percentage change is at
most minus the minimum edge, SELL when it is at least the minimum edge, and
HOLD when its magnitude is below the edge; but the status operation never
attaches a confidence value to any response (the fixed 80/50 confidences of
the claim are not emitted). -/
theorem auto_status_threshold_trichotomy :
    (∀ d : ℚ, d ≤ -min_move_pct → signalAction d = "BUY") ∧
    (∀ d : ℚ, min_move_pct ≤ d → signalAction d = "SELL") ∧
    (∀ d : ℚ, |d| < min_move_pct → signalAction d = "HOLD") ∧
    (∀ (env : AutoEnv) (pid : String) (last : Option ℚ) (fetch : HistFetch)
        (resp : List (String × JVal)) (last' : Option ℚ),
       api_auto_status env pid last fetch = .ok (resp, last') →
       hasKey "confidence" resp = false) := by
  have hm : (0 : ℚ) < min_move_pct := by
    norm_num [min_move_pct, round_trip_fee_pct, FEE_RATE, FEE_BUFFER_PCT]
  refine ⟨?_, ?_, ?_, ?_⟩
  · intro d hd
    rw [signalAction, if_pos hd]
  · intro d hd
    rw [signalAction, if_neg (by linarith), if_pos hd]
  · intro d hd
    obtain ⟨h1, h2⟩ := abs_lt.mp hd
    rw [signalAction, if_neg (by linarith), if_neg (by linarith)]
  · intro env pid last fetch resp last' h
    exact (auto_status_resp_spec env pid last fetch resp last' h).1

/-- Witness for `auto_status_threshold_trichotomy`: the trichotomy at the
moves -2, +2 and 0, and the no-confidence clause at a concrete call. -/
theorem auto_status_threshold_trichotomy_witness :
    signalAction (-2) = "BUY" ∧
    signalAction 2 = "SELL" ∧
    signalAction 0 = "HOLD" ∧
    hasKey "confidence"
      [("ok", .b true), ("auto_on", .b (idleEnv 0).auto_on),
       ("action", .s (signalAction (diffPct (candleCloses sampleCandles)))),
       ("reason", .r (signalReason (diffPct (candleCloses sampleCandles)))),
       ("price", .n ((candleCloses sampleCandles).getLastD 0))] = false :=
  ⟨auto_status_threshold_trichotomy.1 (-2)
      (by norm_num [min_move_pct, round_trip_fee_pct, FEE_RATE, FEE_BUFFER_PCT]),
   auto_status_threshold_trichotomy.2.1 2
      (by norm_num [min_move_pct, round_trip_fee_pct, FEE_RATE, FEE_BUFFER_PCT]),
   auto_status_threshold_trichotomy.2.2.1 0
      (by norm_num [min_move_pct, round_trip_fee_pct, FEE_RATE, FEE_BUFFER_PCT]),
   auto_status_threshold_trichotomy.2.2.2 (idleEnv 0) "BTC-USD" none
      (.ok 200 (some sampleCandles)) _ none
      (auto_status_report (idleEnv 0) "BTC-USD" sampleCandles none
        (by decide)
        (by simp [sampleCandles, candleCloses, recentAvg]; norm_num)
        (fun t ht => nomatch ht) (Or.inl rfl))⟩

/-- C3 (counterexample): a status call 10 minutes after a trade — strictly
inside the 15-minute cooldown window — whose candle fetch fails with HTTP
500 returns HOLD with reason `no_history` (line 363), not a cooldown reason,
refuting the claim that every in-window call returns a cooldown reason. -/
theorem auto_status_cooldown_reason_cex :
    (idleEnv 1000).now - 990 < COOLDOWN_MINUTES ∧
    api_auto_status (idleEnv 1000) "BTC-USD" (some 990) (.ok 500 none) =
      .ok ([("ok", .b false), ("auto_on", .b false),
            ("action", .s "HOLD"), ("reason", .r .no_history)], some 990) ∧
    Reason.no_history ≠ Reason.cooldown COOLDOWN_MINUTES := by
  refine ⟨by norm_num [idleEnv, COOLDOWN_MINUTES], rfl, by decide⟩

/-- C3 (amended): after a trade, a status call strictly inside the cooldown
window whose candle fetch succeeds with a nonempty close series and a
nonzero reference average (a zero average makes the source raise at line 385
instead of answering) returns the cooldown HOLD response and keeps the
timestamp; every in-window status call that produces a response — whatever
its fetch outcome — executes no trade and keeps the timestamp; and along any
trace of status calls the executed-trade times, including the prior trade
time when one exists, are always spaced by at least `COOLDOWN_MINUTES`, so
two trades are never executed less than `COOLDOWN_MINUTES` apart. -/
theorem auto_trader_cooldown_spacing :
    (∀ (env : AutoEnv) (pid : String) (t0 : ℚ) (cs : List Candle6),
       candleCloses cs ≠ [] →
       recentAvg (candleCloses cs) ≠ 0 →
       env.now - t0 < COOLDOWN_MINUTES →
       api_auto_status env pid (some t0) (.ok 200 (some cs)) =
         .ok ([("ok", .b true), ("auto_on", .b env.auto_on),
               ("action", .s "HOLD"), ("reason", .r (.cooldown COOLDOWN_MINUTES)),
               ("price", .n ((candleCloses cs).getLastD 0))], some t0)) ∧
    (∀ (env : AutoEnv) (pid : String) (t0 : ℚ) (fetch : HistFetch)
        (resp : List (String × JVal)) (last' : Option ℚ),
       env.now - t0 < COOLDOWN_MINUTES →
       api_auto_status env pid (some t0) fetch = .ok (resp, last') →
       hasKey "executed" resp = false ∧ last' = some t0) ∧
    (∀ (t0 : ℚ) (steps : List AutoStep),
       List.Chain' (fun u v => COOLDOWN_MINUTES ≤ v - u)
         (t0 :: tradeTimes (some t0) steps)) ∧
    (∀ steps : List AutoStep,
       List.Chain' (fun u v => COOLDOWN_MINUTES ≤ v - u)
         (tradeTimes none steps)) := by
  refine ⟨auto_status_cooldown, ?_, ?_, ?_⟩
  · intro env pid t0 fetch resp last' hcd h
    obtain ⟨-, hexec, hkeep⟩ :=
      auto_status_resp_spec env pid (some t0) fetch resp last' h
    by_cases he : hasKey "executed" resp = true
    · exact absurd hcd ((hexec he).2 t0 rfl)
    · have hf : hasKey "executed" resp = false := by simpa using he
      exact ⟨hf, hkeep hf⟩
  · intro t0 steps
    exact tradeTimes_chain steps (some t0)
  · intro steps
    exact tradeTimes_chain steps none

/-- Witness for `auto_trader_cooldown_spacing`: the cooldown response 10
minutes after a trade on the sample candles; the no-trade clause at an
in-window call whose fetch fails; and the spacing chains on empty traces. -/
theorem auto_trader_cooldown_spacing_witness :
    api_auto_status (idleEnv 1000) "BTC-USD" (some 990)
        (.ok 200 (some sampleCandles)) =
      .ok ([("ok", .b true), ("auto_on", .b (idleEnv 1000).auto_on),
            ("action", .s "HOLD"), ("reason", .r (.cooldown COOLDOWN_MINUTES)),
            ("price", .n ((candleCloses sampleCandles).getLastD 0))], some 990) ∧
    (hasKey "executed"
        [("ok", .b false), ("auto_on", .b false),
         ("action", .s "HOLD"), ("reason", .r .no_history)] = false ∧
      (some (990 : ℚ) : Option ℚ) = some 990) ∧
    List.Chain' (fun u v => COOLDOWN_MINUTES ≤ v - u)
      ((0 : ℚ) :: tradeTimes (some 0) []) ∧
    List.Chain' (fun u v => COOLDOWN_MINUTES ≤ v - u) (tradeTimes none []) :=
  ⟨auto_trader_cooldown_spacing.1 (idleEnv 1000) "BTC-USD" 990 sampleCandles
      (by decide)
      (by simp [sampleCandles, candleCloses, recentAvg]; norm_num)
      (by norm_num [idleEnv, COOLDOWN_MINUTES]),
   auto_trader_cooldown_spacing.2.1 (idleEnv 1000) "BTC-USD" 990 (.ok 500 none)
      [("ok", .b false), ("auto_on", .b false),
       ("action", .s "HOLD"), ("reason", .r .no_history)] (some 990)
      (by norm_num [idleEnv, COOLDOWN_MINUTES]) rfl,
   auto_trader_cooldown_spacing.2.2.1 0 [],
   auto_trader_cooldown_spacing.2.2.2 []⟩

/-- C8: the reference price of the status operation is the arithmetic mean
of the last min(12, n) closes — a window that contains the current (last)
price — and the percentage change is (current - mean) / mean * 100. -/
theorem recent_avg_is_mean_of_last_window (closes : List ℚ) (h : closes ≠ []) :
    recentAvg closes = recentAvgSpec closes ∧
    closes.getLastD 0 ∈ lastWindow closes ∧
    diffPct closes =
      (closes.getLastD 0 - recentAvg closes) / recentAvg closes * 100 := by
  have hrev : (lastWindow closes).reverse =
      closes.drop (closes.length - min 12 closes.length) := by
    rw [lastWindow, List.reverse_take]
    simp
  refine ⟨?_, ?_, rfl⟩
  · have hs : (closes.drop (closes.length - min 12 closes.length)).sum =
        (lastWindow closes).sum := by
      rw [← hrev, List.sum_reverse]
    simp only [recentAvg, recentAvgSpec]
    rw [hs]
  · have hw : 1 ≤ min 12 closes.length := by
      have h1 : 0 < closes.length := List.length_pos.mpr h
      omega
    obtain ⟨a, t, hat⟩ : ∃ a t, closes.reverse = a :: t := by
      cases hr : closes.reverse with
      | nil => exact absurd (List.reverse_eq_nil_iff.mp hr) h
      | cons a t => exact ⟨a, t, rfl⟩
    have ha : closes.getLastD 0 = a := by
      rw [List.getLastD_eq_getLast?, ← List.head?_reverse, hat]
      rfl
    obtain ⟨w, hww⟩ : ∃ w, min 12 closes.length = w + 1 :=
      ⟨min 12 closes.length - 1, by omega⟩
    rw [lastWindow, hat, hww, ha, List.take_succ_cons]
    exact List.mem_cons_self _ _

/-- Witness for `recent_avg_is_mean_of_last_window` at the sample close
series [100, 100, 98]. -/
theorem recent_avg_is_mean_of_last_window_witness :
    recentAvg [100, 100, 98] = recentAvgSpec [100, 100, 98] ∧
    ([100, 100, 98] : List ℚ).getLastD 0 ∈ lastWindow [100, 100, 98] ∧
    diffPct [100, 100, 98] =
      (([100, 100, 98] : List ℚ).getLastD 0 - recentAvg [100, 100, 98]) /
        recentAvg [100, 100, 98] * 100 :=
  recent_avg_is_mean_of_last_window [100, 100, 98] (by decide)

end CoinbaseBot
